import Mathlib

/-!
Verification development for the middleware core of a FastAPI boilerplate
service.  The Python middleware code is shallowly embedded: Python strings
become lists of characters (`Str`), JSON values become the inductive `Json`,
and each middleware entry point becomes a pure Lean function whose branching
mirrors the Python source line by line.

Embedded code:
- `app/middleware/api_key_auth.py` (`AuthMiddleware`): `path_match`,
  `is_path_excluded_apikey`, `is_path_excluded_jwt`, `__init__`, `dispatch`.
- `app/middleware/request_logging.py` (`RequestResponseLoggingMiddleware`):
  `path_match` (identical to the auth copy, embedded once),
  `_mask_sensitive_data`, `_truncate_body`, `_is_file_response`,
  `_capture_response_body`.
- `app/middleware/trailing_slash.py` (`TrailingSlashMiddleware`): `dispatch`.
-/

/-- Python strings are modelled as lists of characters, so that all string
operations reduce by structural recursion. -/
abbrev Str := List Char

/-- Model of Python `str.lower()` (adequate for the ASCII keys and headers
handled by the middleware). -/
def lowerStr (s : Str) : Str := s.map Char.toLower

/-- Model of Python `sub in s` (substring containment) for a non-empty `sub`:
true when some suffix of `s` starts with `sub`. -/
def strContainsSub (sub : Str) : Str → Bool
  | [] => sub.isPrefixOf []
  | c :: t => sub.isPrefixOf (c :: t) || strContainsSub sub t

/-- Model of Python `s.split(sub)[0]` for a non-empty separator `sub`: the
characters of `s` before the first occurrence of `sub` (all of `s` when `sub`
does not occur). -/
def beforeFirst (sub : Str) : Str → Str
  | [] => []
  | c :: t => if sub.isPrefixOf (c :: t) then [] else c :: beforeFirst sub t

/-- Model of Python `s.split(sub)` restricted to what the middleware needs
after the first occurrence: the characters of `s` strictly after the first
occurrence of `sub`, or `none` when `sub` does not occur (used by the
`filename=` extraction). -/
def afterFirst (sub : Str) : Str → Option Str
  | [] => if sub.isEmpty then some [] else none
  | c :: t => if sub.isPrefixOf (c :: t) then some ((c :: t).drop sub.length) else afterFirst sub t

/-- Model of Python `s.split('/')`. -/
def splitSlash : Str → List Str
  | [] => [[]]
  | c :: t =>
    if c = '/' then [] :: splitSlash t
    else
      match splitSlash t with
      | h :: r => (c :: h) :: r
      | [] => [[c]]

/-- Model of Python `s.endswith(c)` for a single character `c`. -/
def strEndsWithChar (s : Str) (c : Char) : Bool :=
  match s.getLast? with
  | some d => d == c
  | none => false

/-- Model of the segment clean-up in `path_match`
(`if segments and segments[-1] == '': segments.pop()`). -/
def dropTrailingEmpty (l : List Str) : List Str :=
  match l.getLast? with
  | some [] => l.dropLast
  | _ => l

/-- Model of Python `s.rstrip('/')`: remove every trailing slash. -/
def rstripSlash (s : Str) : Str := (s.reverse.dropWhile (fun c => c == '/')).reverse

/-- Embedding of `AuthMiddleware.path_match` (`app/middleware/api_key_auth.py`,
lines 87-133).  `RequestResponseLoggingMiddleware.path_match` is character for
character the same function, so both are embedded by this single definition. -/
def path_match (path pattern : Str) : Bool :=
  if strContainsSub "/**".toList pattern then
    path == beforeFirst "/**".toList pattern
      || (beforeFirst "/**".toList pattern ++ "/".toList).isPrefixOf path
  else if strContainsSub "/*".toList pattern then
    if path != "/".toList && strEndsWithChar path '/' then false
    else
      let patternSegments := dropTrailingEmpty (splitSlash pattern)
      let pathSegments := dropTrailingEmpty (splitSlash path)
      if patternSegments.length != pathSegments.length then false
      else (patternSegments.zip pathSegments).all
        (fun pq => pq.1 == "*".toList || pq.1 == pq.2)
  else path == pattern

/-- Settings consumed by `AuthMiddleware.__init__` for the API-key scheme
(`ApiKeyAuthConfig` in `app/core/yaml_config.py`; `api_key` is the property
reading the `API_KEY` environment variable, hence an `Option`). -/
structure ApiKeySettingsM where
  enabled : Bool
  prefixStr : Str
  api_key : Option Str
  exclude_patterns : List Str

/-- Settings consumed by `AuthMiddleware.__init__` for the JWT scheme
(`JwtAuthConfig` in `app/core/yaml_config.py`, restricted to the fields the
middleware reads). -/
structure JwtSettingsM where
  enabled : Bool
  exclude_patterns : List Str

/-- State of a constructed `AuthMiddleware` instance: stored settings plus the
effective enabled flags computed by `__init__`. -/
structure AuthMiddlewareM where
  additional_exclude_paths : List Str
  api_key_settings : ApiKeySettingsM
  jwt_settings : JwtSettingsM
  api_key_enabled : Bool
  jwt_enabled : Bool

/-- Python truthiness of an optional string (`None` and `""` are falsy). -/
def pyTruthyOptStr : Option Str → Bool
  | none => false
  | some s => !s.isEmpty

/-- Embedding of `AuthMiddleware.__init__` (lines 26-70): the effective
API-key flag is cleared when no key value is configured (line 56-58). -/
def AuthMiddleware_init (apiKeySettings : ApiKeySettingsM) (jwtSettings : JwtSettingsM)
    (excludePaths : List Str) : AuthMiddlewareM :=
  { additional_exclude_paths := excludePaths
    api_key_settings := apiKeySettings
    jwt_settings := jwtSettings
    api_key_enabled := apiKeySettings.enabled && pyTruthyOptStr apiKeySettings.api_key
    jwt_enabled := jwtSettings.enabled }

/-- Embedding of `AuthMiddleware.is_path_excluded_apikey` (lines 135-157). -/
def is_path_excluded_apikey (m : AuthMiddlewareM) (path : Str) : Bool :=
  m.additional_exclude_paths.any (fun p => p.isPrefixOf path)
    || m.api_key_settings.exclude_patterns.any (fun pat => path_match path pat)

/-- Embedding of `AuthMiddleware.is_path_excluded_jwt` (lines 159-181). -/
def is_path_excluded_jwt (m : AuthMiddlewareM) (path : Str) : Bool :=
  m.additional_exclude_paths.any (fun p => p.isPrefixOf path)
    || m.jwt_settings.exclude_patterns.any (fun pat => path_match path pat)

/-- Which 401 detail message `AuthMiddleware.dispatch` produces. -/
inductive AuthDetail where
  | credentialRequired
  | invalidApiKey
  | jwtInvalid (detail : Str)
  | malformedHeaderBoth
  | malformedHeaderApiKeyOnly
  | malformedHeaderBearerOnly
deriving DecidableEq

/-- Outcome of `AuthMiddleware.dispatch`: either forward to `call_next` or
return a 401 `JSONResponse` (the flag records whether a
`WWW-Authenticate: Bearer` header is attached). -/
inductive AuthOutcome where
  | passThrough
  | reject (detail : AuthDetail) (wwwAuthenticateBearer : Bool)
deriving DecidableEq

/-- The hard-coded bearer scheme marker of `dispatch` (line 246). -/
def bearerPrefixStr : Str := "Bearer ".toList

/-- Python `s == maybeNone` where the right side may be `None`
(comparison with `None` is `False`). -/
def optStrEq (s : Str) : Option Str → Bool
  | none => false
  | some t => s == t

/-- Embedding of `AuthMiddleware.dispatch` (lines 183-296).  The external
token verifier `get_token_data` (`app/core/auth.py`) is passed in as
`getTokenData`; `.ok` models a successful verification and `.error d` models
the `HTTPException` branch with detail `d`.  The `authorization` argument is
the raw `Authorization` header (`none` when absent). -/
def dispatch (m : AuthMiddlewareM) (getTokenData : Str → Except Str Unit)
    (path : Str) (authorization : Option Str) : AuthOutcome :=
  if !m.api_key_enabled && !m.jwt_enabled then .passThrough
  else if !(pyTruthyOptStr authorization) then
    if m.api_key_enabled && !(is_path_excluded_apikey m path) then
      .reject .credentialRequired false
    else if m.jwt_enabled && !(is_path_excluded_jwt m path) then
      .reject .credentialRequired true
    else .passThrough
  else
    let auth := authorization.getD []
    if m.api_key_enabled && !(is_path_excluded_apikey m path)
        && m.api_key_settings.prefixStr.isPrefixOf auth then
      if optStrEq (auth.drop m.api_key_settings.prefixStr.length) m.api_key_settings.api_key then
        .passThrough
      else .reject .invalidApiKey false
    else if m.jwt_enabled && !(is_path_excluded_jwt m path)
        && bearerPrefixStr.isPrefixOf auth then
      match getTokenData (auth.drop bearerPrefixStr.length) with
      | .ok _ => .passThrough
      | .error e => .reject (.jwtInvalid e) true
    else if m.api_key_enabled && m.jwt_enabled then .reject .malformedHeaderBoth true
    else if m.api_key_enabled then .reject .malformedHeaderApiKeyOnly false
    else if m.jwt_enabled then .reject .malformedHeaderBearerOnly true
    else .passThrough

/-- JSON values, the data masked and logged by
`RequestResponseLoggingMiddleware`. -/
inductive Json where
  | null : Json
  | jbool (b : Bool) : Json
  | num (n : Int) : Json
  | str (s : Str) : Json
  | arr (elems : List Json) : Json
  | obj (fields : List (Str × Json)) : Json

/-- The fixed mask token written by `_mask_sensitive_data` (line 99). -/
def maskTok : Str := "******".toList

mutual

/-- Embedding of `RequestResponseLoggingMiddleware._mask_sensitive_data`
(lines 93-106).  `sensitiveFields` models `self.sensitive_fields`; the key
test is `key.lower() in self.sensitive_fields`.  A sensitive key's value is
replaced wholesale; a non-sensitive key's value is masked recursively; lists
are masked element-wise; everything else is returned unchanged. -/
def mask_sensitive_data (sensitiveFields : List Str) : Json → Json
  | .null => .null
  | .jbool b => .jbool b
  | .num n => .num n
  | .str s => .str s
  | .arr es => .arr (mask_sensitive_list sensitiveFields es)
  | .obj fs => .obj (mask_sensitive_fields sensitiveFields fs)

/-- The list comprehension of `_mask_sensitive_data` for list values
(line 105). -/
def mask_sensitive_list (sensitiveFields : List Str) : List Json → List Json
  | [] => []
  | j :: t => mask_sensitive_data sensitiveFields j :: mask_sensitive_list sensitiveFields t

/-- The dict loop of `_mask_sensitive_data` for object values (lines 96-103). -/
def mask_sensitive_fields (sensitiveFields : List Str) : List (Str × Json) → List (Str × Json)
  | [] => []
  | (k, v) :: t =>
    (k, if sensitiveFields.contains (lowerStr k) then Json.str maskTok
        else mask_sensitive_data sensitiveFields v)
      :: mask_sensitive_fields sensitiveFields t

end

/-- Embedding of `RequestResponseLoggingMiddleware._truncate_body`
(lines 108-112); `maxBodySize` models `self.max_body_size`. -/
def truncate_body (maxBodySize : Nat) (body : Str) : Str :=
  if body.length > maxBodySize then body.take maxBodySize ++ "... [truncated]".toList
  else body

/-- The default sensitive-field set of `LoggingHttpConfig.sensitive_fields`
(`app/core/yaml_config.py`, lines 34-36). -/
def defaultSensitiveFields : List Str :=
  ["password".toList, "token".toList, "authorization".toList,
   "api_key".toList, "secret".toList]

/-- The `FILE_CONTENT_TYPES` constant of `app/middleware/request_logging.py`
(lines 25-41). -/
def fileContentTypes : List Str :=
  ["multipart/form-data".toList,
   "application/octet-stream".toList,
   "application/pdf".toList,
   "application/zip".toList,
   "application/x-zip-compressed".toList,
   "image/jpeg".toList,
   "image/png".toList,
   "image/gif".toList,
   "image/svg+xml".toList,
   "application/vnd.openxmlformats-officedocument".toList,
   "application/vnd.ms-excel".toList,
   "application/msword".toList,
   "application/vnd.ms-powerpoint".toList,
   "audio/".toList,
   "video/".toList]

/-- The response headers `_is_file_response` and `_capture_response_body`
read (missing headers are modelled by the empty string, matching
`headers.get(..., "")`). -/
structure RespHeaders where
  contentType : Str
  contentDisposition : Str

/-- The concrete Python class of a response, which the source inspects with
`isinstance`: `FileResponse`, `LoggableJSONResponse` (carrying the raw
`content` object passed to its constructor), plain `JSONResponse` (carrying
its decoded `body` bytes), or any other `Response` (carrying its body, which
the source never reads). -/
inductive RespClass where
  | fileResponse
  | loggableJson (bodyRaw : Option Json)
  | jsonResponse (body : Str)
  | plain (body : Str)

/-- A response as seen by the logging middleware: its concrete class plus its
declared headers. -/
structure RespM where
  cls : RespClass
  headers : RespHeaders

/-- Embedding of `RequestResponseLoggingMiddleware._is_file_response`
(lines 128-144): `isinstance(response, FileResponse)`, else
attachment/inline in the lower-cased `Content-Disposition`, else a file
content-type prefix of the lower-cased `Content-Type`. -/
def is_file_response (r : RespM) : Bool :=
  (match r.cls with | .fileResponse => true | _ => false)
    || strContainsSub "attachment".toList (lowerStr r.headers.contentDisposition)
    || strContainsSub "inline".toList (lowerStr r.headers.contentDisposition)
    || fileContentTypes.any (fun t => t.isPrefixOf (lowerStr r.headers.contentType))

/-- Python truthiness of a JSON value, modelling `if raw_body:`
(line 314). -/
def jsonTruthy : Json → Bool
  | .null => false
  | .jbool b => b
  | .num n => n != 0
  | .str s => !s.isEmpty
  | .arr es => !es.isEmpty
  | .obj fs => !fs.isEmpty

/-- The double-quote character, written by code point to keep it out of
character-literal syntax. -/
def quoteChar : Char := Char.ofNat 34

/-- Model of the filename extraction of `_capture_response_body`
(lines 302-307), i.e. the first match of the regular expression
`filename="?([^";]+)"?` in the `Content-Disposition` value: after the first
occurrence of `filename=`, skip one optional quote and capture the maximal
non-empty run of characters that are neither a quote nor a semicolon
(modelled without regex backtracking, which only matters when an empty
capture is followed by a later `filename=`). -/
def filename_from_disposition (cd : Str) : Option Str :=
  match afterFirst "filename=".toList cd with
  | none => none
  | some rest =>
    let rest2 := if rest.head? = some quoteChar then rest.tail else rest
    let captured := rest2.takeWhile (fun c => !(c == quoteChar) && !(c == ';'))
    if captured.isEmpty then none else some captured

/-- Result of `_capture_response_body`.  The source returns
`Optional[str]`; the file branch serializes a descriptor dict with
`json.dumps`, modelled here structurally as `fileDescriptor` (content type
and the filename extracted from `Content-Disposition`, when the header is
non-empty and the extraction succeeds). -/
inductive CaptureResult where
  | noBody
  | fileDescriptor (contentType : Str) (filename : Option Str)
  | bodyText (text : Str)
deriving DecidableEq

/-- Embedding of `RequestResponseLoggingMiddleware._capture_response_body`
(lines 288-332).  The external collaborators `json.loads` and `json.dumps`
are passed in as `parseJson` (returning `none` on `JSONDecodeError`) and
`dumpsJson`.  Branches in source order: the `log_response_body` switch, the
file-response branch, then `isinstance` dispatch on `LoggableJSONResponse`
and `JSONResponse`; every other response class reaches the trailing
`return None`. -/
def capture_response_body (logResponseBody : Bool) (sensitiveFields : List Str)
    (maxBodySize : Nat) (parseJson : Str → Option Json) (dumpsJson : Json → Str)
    (r : RespM) : CaptureResult :=
  if !logResponseBody then .noBody
  else if is_file_response r then
    .fileDescriptor r.headers.contentType
      (if r.headers.contentDisposition.isEmpty then none
       else filename_from_disposition r.headers.contentDisposition)
  else
    match r.cls with
    | .loggableJson bodyRaw =>
      match bodyRaw with
      | some j =>
        if jsonTruthy j then
          .bodyText (truncate_body maxBodySize
            (dumpsJson (mask_sensitive_data sensitiveFields j)))
        else .noBody
      | none => .noBody
    | .jsonResponse body =>
      if !body.isEmpty then
        match parseJson body with
        | some j =>
          .bodyText (truncate_body maxBodySize
            (dumpsJson (mask_sensitive_data sensitiveFields j)))
        | none => .bodyText (truncate_body maxBodySize body)
      else .noBody
    | _ => .noBody

/-- Outcome of `TrailingSlashMiddleware.dispatch`: either an immediate 301
`RedirectResponse` to the given path (downstream stages are not invoked) or
forwarding to `call_next` with the given routing path in the request scope. -/
inductive SlashOutcome where
  | redirectPermanent (location : Str)
  | forward (routedPath : Str)
deriving DecidableEq

/-- Embedding of `TrailingSlashMiddleware.dispatch`
(`app/middleware/trailing_slash.py`, lines 36-66): root and slash-free paths
are forwarded untouched; otherwise `normalized_path = path.rstrip('/')` is
either the target of a 301 redirect (`redirect = true`) or the rewritten
`request.scope["path"]` (`redirect = false`). -/
def trailing_slash_dispatch (redirect : Bool) (path : Str) : SlashOutcome :=
  if path != "/".toList && strEndsWithChar path '/' then
    if redirect then .redirectPermanent (rstripSlash path)
    else .forward (rstripSlash path)
  else .forward path

/-- Spec-side reading of single-wildcard matching as asserted by claim C3 and
spec §4.1 rule 2: identical to the `/*` branch of `path_match` except that a
pattern segment `*` is required to be paired with a NON-EMPTY path segment.
Written only to be compared against the embedded `path_match`. -/
def singleStarClaimMatch (path pattern : Str) : Bool :=
  if path != "/".toList && strEndsWithChar path '/' then false
  else
    let patternSegments := dropTrailingEmpty (splitSlash pattern)
    let pathSegments := dropTrailingEmpty (splitSlash path)
    patternSegments.length == pathSegments.length
      && (patternSegments.zip pathSegments).all
        (fun pq => if pq.1 == "*".toList then !pq.2.isEmpty else pq.1 == pq.2)

/-- Structural occurrence of a JSON value inside another, at any nesting
depth: a value occurs in itself, in an array containing a value it occurs in,
and in an object one of whose field values it occurs in. -/
inductive Occurs : Json → Json → Prop where
  | refl (j : Json) : Occurs j j
  | inArr {v e : Json} {es : List Json} : e ∈ es → Occurs v e → Occurs v (.arr es)
  | inObj {v : Json} {kv : Str × Json} {fs : List (Str × Json)} :
      kv ∈ fs → Occurs v kv.2 → Occurs v (.obj fs)

/-- Claim C7: a body strictly longer than the configured maximum is truncated
to exactly the maximum plus the marker length, keeping the first `max`
characters as prefix; a body of length at most the maximum is returned
unchanged (`_truncate_body`, lines 108-112). -/
theorem truncate_body_spec (maxBodySize : Nat) (body : Str) :
    (maxBodySize < body.length →
      (truncate_body maxBodySize body).length = maxBodySize + "... [truncated]".toList.length
        ∧ (truncate_body maxBodySize body).take maxBodySize = body.take maxBodySize)
    ∧ (body.length ≤ maxBodySize → truncate_body maxBodySize body = body) := by
  constructor
  · intro h
    have hgt : body.length > maxBodySize := h
    constructor
    · simp [truncate_body, if_pos hgt, List.length_append, List.length_take,
        Nat.min_eq_left (Nat.le_of_lt h)]
    · rw [truncate_body, if_pos hgt,
        List.take_append_of_le_length (by simp [Nat.le_of_lt h]),
        List.take_take, Nat.min_self]
  · intro h
    rw [truncate_body, if_neg (by omega)]

/-- Witness for C7 at the concrete body `"abcde"` with maxima 2 and 7. -/
theorem truncate_body_spec_witness :
    (truncate_body 2 "abcde".toList).length = 2 + "... [truncated]".toList.length
      ∧ (truncate_body 2 "abcde".toList).take 2 = "abcde".toList.take 2
      ∧ truncate_body 7 "abcde".toList = "abcde".toList :=
  ⟨((truncate_body_spec 2 "abcde".toList).1 (by decide)).1,
   ((truncate_body_spec 2 "abcde".toList).1 (by decide)).2,
   (truncate_body_spec 7 "abcde".toList).2 (by decide)⟩

/-- Claim C2: for every pattern containing `/**`, with `base` the part of the
pattern before the first `/**`, a path matches iff it equals `base` or starts
with `base` followed by `/` — regardless of any lone `/*` elsewhere in the
pattern, since the `/**` branch of `path_match` is checked first. -/
theorem path_match_recursive_spec (path pattern : Str)
    (h : strContainsSub "/**".toList pattern = true) :
    path_match path pattern = true ↔
      (path = beforeFirst "/**".toList pattern
        ∨ beforeFirst "/**".toList pattern ++ "/".toList <+: path) := by
  unfold path_match
  rw [if_pos h]
  simp [List.isPrefixOf_iff_prefix]

/-- Witness for C2: `/health/**` (which also contains a lone `/*` as a
substring) matches `/health/liveness` but not `/healthcheck`. -/
theorem path_match_recursive_spec_witness :
    path_match "/health/liveness".toList "/health/**".toList = true
      ∧ path_match "/healthcheck".toList "/health/**".toList = false := by
  constructor
  · exact (path_match_recursive_spec "/health/liveness".toList "/health/**".toList
      (by decide)).mpr (by decide)
  · exact Bool.eq_false_iff.mpr (fun hm =>
      absurd ((path_match_recursive_spec "/healthcheck".toList "/health/**".toList
        (by decide)).mp hm) (by decide))

/-- Helper: the segment loop of the `/*` branch, as a statement about
individual indices. -/
theorem zip_all_star_iff (ps qs : List Str) :
    ((ps.zip qs).all (fun pq => pq.1 == "*".toList || pq.1 == pq.2) = true) ↔
      ∀ i (hp : i < ps.length) (hq : i < qs.length),
        ps.get ⟨i, hp⟩ = "*".toList ∨ ps.get ⟨i, hp⟩ = qs.get ⟨i, hq⟩ := by
  induction ps generalizing qs with
  | nil => simp
  | cons p pt ih =>
    cases qs with
    | nil => simp
    | cons q qt =>
      simp only [List.zip_cons_cons, List.all_cons, Bool.and_eq_true, Bool.or_eq_true,
        beq_iff_eq, ih qt]
      constructor
      · rintro ⟨h0, hrest⟩ i hp hq
        cases i with
        | zero => exact h0
        | succ n => exact hrest n (Nat.lt_of_succ_lt_succ hp) (Nat.lt_of_succ_lt_succ hq)
      · intro hall
        refine ⟨hall 0 (Nat.succ_pos _) (Nat.succ_pos _), fun n hp hq => ?_⟩
        exact hall (n + 1) (Nat.succ_lt_succ hp) (Nat.succ_lt_succ hq)

/-- Claim C3 counterexample: on path `/a//b` against pattern `/a/*/b` the
embedded `path_match` returns true although the middle path segment is empty,
while the claimed semantics (wildcard requires a non-empty segment) returns
false. -/
theorem path_match_single_star_cex :
    path_match "/a//b".toList "/a/*/b".toList = true
      ∧ singleStarClaimMatch "/a//b".toList "/a/*/b".toList = false := by decide

/-- Claim C3 as amended: for a pattern containing `/*` but not `/**`, a path
other than `/` ending in `/` never matches; otherwise both strings are split
on `/` with a trailing empty segment dropped, segment counts must agree, and
every pattern segment is either `*` (matching ANY path segment, empty ones
included) or character-equal to its path segment. -/
theorem path_match_single_star_amended (path pattern : Str)
    (h1 : strContainsSub "/**".toList pattern = false)
    (h2 : strContainsSub "/*".toList pattern = true) :
    path_match path pattern = true ↔
      ((path = "/".toList ∨ strEndsWithChar path '/' = false)
        ∧ (dropTrailingEmpty (splitSlash pattern)).length
            = (dropTrailingEmpty (splitSlash path)).length
        ∧ ∀ i (hp : i < (dropTrailingEmpty (splitSlash pattern)).length)
            (hq : i < (dropTrailingEmpty (splitSlash path)).length),
            (dropTrailingEmpty (splitSlash pattern)).get ⟨i, hp⟩ = "*".toList
              ∨ (dropTrailingEmpty (splitSlash pattern)).get ⟨i, hp⟩
                  = (dropTrailingEmpty (splitSlash path)).get ⟨i, hq⟩) := by
  unfold path_match
  rw [if_neg (by rw [h1]; exact Bool.false_ne_true), if_pos h2]
  by_cases hguard : (path != "/".toList && strEndsWithChar path '/') = true
  · rw [if_pos hguard]
    simp only [Bool.and_eq_true, bne_iff_ne] at hguard
    constructor
    · intro hfalse; exact absurd hfalse (by simp)
    · rintro ⟨hpath, -, -⟩
      rcases hpath with hpath | hpath
      · exact absurd hpath hguard.1
      · rw [hguard.2] at hpath; exact absurd hpath (by simp)
  · rw [if_neg hguard]
    simp only [Bool.and_eq_true, bne_iff_ne, not_and] at hguard
    have hside : path = "/".toList ∨ strEndsWithChar path '/' = false := by
      by_cases hp : path = "/".toList
      · exact Or.inl hp
      · exact Or.inr (Bool.eq_false_iff.mpr (hguard hp))
    by_cases hlen : (dropTrailingEmpty (splitSlash pattern)).length
        = (dropTrailingEmpty (splitSlash path)).length
    · rw [if_neg (by simp [hlen])]
      constructor
      · intro hall
        exact ⟨hside, hlen, (zip_all_star_iff _ _).mp hall⟩
      · rintro ⟨-, -, hall⟩
        exact (zip_all_star_iff _ _).mpr hall
    · rw [if_pos (by simp [hlen])]
      constructor
      · intro hfalse; exact absurd hfalse (by simp)
      · rintro ⟨-, hl, -⟩; exact absurd hl hlen

/-- Witness for the amended C3 on `/api/*`: trailing-slash paths never match,
`/api/users` matches, `/api/users/me` does not. -/
theorem path_match_single_star_amended_witness :
    path_match "/api/users".toList "/api/*".toList = true
      ∧ path_match "/api/users/me".toList "/api/*".toList = false := by
  constructor
  · exact (path_match_single_star_amended "/api/users".toList "/api/*".toList
      (by decide) (by decide)).mpr
      ⟨by decide, by decide, by decide⟩
  · exact Bool.eq_false_iff.mpr (fun hm =>
      absurd ((path_match_single_star_amended "/api/users/me".toList "/api/*".toList
        (by decide) (by decide)).mp hm).2.1 (by decide))

/-- Helper: the head of `dropWhile` does not satisfy the predicate. -/
theorem head_dropWhile_not_sat (p : Char → Bool) :
    ∀ (l : Str) (a : Char), (l.dropWhile p).head? = some a → p a = false
  | [], a => by simp [List.dropWhile]
  | c :: t, a => by
    by_cases h : p c
    · rw [List.dropWhile_cons_of_pos h]
      exact head_dropWhile_not_sat p t a
    · rw [List.dropWhile_cons_of_neg h]
      intro ha
      cases Option.some_inj.mp ha
      exact Bool.eq_false_iff.mpr h

/-- Helper: `rstrip('/')` removes a non-empty maximal block of trailing
slashes and leaves a string that no longer ends in a slash. -/
theorem rstripSlash_spec (path : Str) (h : strEndsWithChar path '/' = true) :
    strEndsWithChar (rstripSlash path) '/' = false
      ∧ ∃ k, 1 ≤ k ∧ path = rstripSlash path ++ List.replicate k '/' := by
  have hsplit : (path.reverse.takeWhile (fun c => c == '/'))
      ++ path.reverse.dropWhile (fun c => c == '/') = path.reverse :=
    List.takeWhile_append_dropWhile (fun c => c == '/') path.reverse
  have hpath : path = rstripSlash path ++ (path.reverse.takeWhile (fun c => c == '/')).reverse := by
    conv_lhs => rw [← List.reverse_reverse path, ← hsplit]
    rw [List.reverse_append, rstripSlash]
  have htw : path.reverse.takeWhile (fun c => c == '/')
      = List.replicate (path.reverse.takeWhile (fun c => c == '/')).length '/' := by
    apply List.eq_replicate_of_mem
    intro b hb
    have := List.mem_takeWhile_imp hb
    simpa using this
  constructor
  · rw [rstripSlash, strEndsWithChar]
    cases hd : (path.reverse.dropWhile (fun c => c == '/')).head? with
    | none =>
      rw [List.getLast?_reverse, hd]
    | some a =>
      rw [List.getLast?_reverse, hd]
      exact head_dropWhile_not_sat (fun c => c == '/') path.reverse a hd
  · refine ⟨(path.reverse.takeWhile (fun c => c == '/')).length, ?_, ?_⟩
    · rw [strEndsWithChar] at h
      cases hlast : path.getLast? with
      | none => rw [hlast] at h; exact absurd h (by simp)
      | some d =>
        rw [hlast] at h
        have hd : d = '/' := by simpa using h
        have hhead : path.reverse.head? = some '/' := by
          rw [List.head?_reverse, hlast, hd]
        cases hr : path.reverse with
        | nil => rw [hr] at hhead; exact absurd hhead (by simp)
        | cons c t =>
          rw [hr] at hhead
          have hc : c = '/' := by simpa using hhead
          rw [List.takeWhile_cons_of_pos (by simp [hc])]
          simp
    · conv_lhs => rw [hpath]
      rw [congrArg List.reverse htw, List.reverse_replicate]

/-- Claim C8 counterexample: on path `/a//` (not `/`, ends in `/`) the
normalizer strips BOTH trailing slashes, producing `/a`, whereas the claim
(strip exactly one, i.e. drop the final character) demands `/a/`. -/
theorem trailing_slash_cex :
    trailing_slash_dispatch true "/a//".toList = .redirectPermanent "/a".toList
      ∧ trailing_slash_dispatch false "/a//".toList = .forward "/a".toList
      ∧ "/a//".toList.dropLast = "/a/".toList
      ∧ "/a".toList ≠ "/a/".toList := by decide

/-- Claim C8 as amended: for every path other than `/` that ends in `/`, the
normalized path is the original with ALL trailing slashes removed (at least
one, and the result no longer ends in `/`); redirect mode answers an
immediate 301 to it, internal mode forwards with it as the routing path. -/
theorem trailing_slash_amended (path : Str)
    (hroot : path ≠ "/".toList) (hslash : strEndsWithChar path '/' = true) :
    trailing_slash_dispatch true path = .redirectPermanent (rstripSlash path)
      ∧ trailing_slash_dispatch false path = .forward (rstripSlash path)
      ∧ strEndsWithChar (rstripSlash path) '/' = false
      ∧ ∃ k, 1 ≤ k ∧ path = rstripSlash path ++ List.replicate k '/' := by
  have hguard : (path != "/".toList && strEndsWithChar path '/') = true := by
    have hroot' : ¬path = ['/'] := by simpa using hroot
    simp [hroot', hslash]
  refine ⟨?_, ?_, (rstripSlash_spec path hslash).1, (rstripSlash_spec path hslash).2⟩
  · rw [trailing_slash_dispatch, if_pos hguard, if_pos rfl]
  · rw [trailing_slash_dispatch, if_pos hguard, if_neg (by simp)]

/-- Witness for the amended C8 at the concrete path `/api/users/`. -/
theorem trailing_slash_amended_witness :
    trailing_slash_dispatch true "/api/users/".toList
        = .redirectPermanent (rstripSlash "/api/users/".toList)
      ∧ trailing_slash_dispatch false "/api/users/".toList
          = .forward (rstripSlash "/api/users/".toList)
      ∧ strEndsWithChar (rstripSlash "/api/users/".toList) '/' = false
      ∧ ∃ k, 1 ≤ k
          ∧ "/api/users/".toList = rstripSlash "/api/users/".toList ++ List.replicate k '/' :=
  trailing_slash_amended "/api/users/".toList (by decide) (by decide)

mutual

/-- Helper: masking is idempotent on values. -/
theorem mask_data_idem (sf : List Str) :
    (j : Json) → mask_sensitive_data sf (mask_sensitive_data sf j) = mask_sensitive_data sf j
  | .null => rfl
  | .jbool _ => rfl
  | .num _ => rfl
  | .str _ => rfl
  | .arr es => by
    simp only [mask_sensitive_data]
    exact congrArg Json.arr (mask_list_idem sf es)
  | .obj fs => by
    simp only [mask_sensitive_data]
    exact congrArg Json.obj (mask_fields_idem sf fs)

/-- Helper: masking is idempotent on element lists. -/
theorem mask_list_idem (sf : List Str) :
    (es : List Json) → mask_sensitive_list sf (mask_sensitive_list sf es) = mask_sensitive_list sf es
  | [] => rfl
  | j :: t => by
    simp only [mask_sensitive_list]
    rw [mask_data_idem sf j, mask_list_idem sf t]

/-- Helper: masking is idempotent on field lists. -/
theorem mask_fields_idem (sf : List Str) :
    (fs : List (Str × Json)) →
      mask_sensitive_fields sf (mask_sensitive_fields sf fs) = mask_sensitive_fields sf fs
  | [] => rfl
  | (k, v) :: t => by
    by_cases h : sf.contains (lowerStr k) = true
    · simp only [mask_sensitive_fields, if_pos h]
      rw [mask_fields_idem sf t]
    · simp only [mask_sensitive_fields, if_neg h]
      rw [mask_data_idem sf v, mask_fields_idem sf t]

end

/-- Helper: a field produced by `mask_sensitive_fields` whose key is
sensitive carries the mask token as its value. -/
theorem mask_fields_sens_val (sf : List Str) :
    ∀ (l : List (Str × Json)) (kv : Str × Json), kv ∈ mask_sensitive_fields sf l →
      sf.contains (lowerStr kv.1) = true → kv.2 = .str maskTok := by
  intro l
  induction l with
  | nil => intro kv h; simp [mask_sensitive_fields] at h
  | cons hd t ih =>
    intro kv h hs
    obtain ⟨k, v⟩ := hd
    simp only [mask_sensitive_fields] at h
    rcases List.mem_cons.mp h with heq | ht
    · subst heq
      simp only at hs ⊢
      rw [if_pos hs]
    · exact ih kv ht hs

mutual

/-- Helper: in any object occurring anywhere inside a masked value, every
sensitive key carries the mask token. -/
theorem masked_sens_pos (sf : List Str) :
    (j : Json) → ∀ fs kv, Occurs (.obj fs) (mask_sensitive_data sf j) → kv ∈ fs →
      sf.contains (lowerStr kv.1) = true → kv.2 = .str maskTok
  | .null => by intro fs kv h; cases h
  | .jbool _ => by intro fs kv h; cases h
  | .num _ => by intro fs kv h; cases h
  | .str _ => by intro fs kv h; cases h
  | .arr es => by
    intro fs kv h hm hs
    cases h with
    | inArr hmem hocc => exact masked_sens_pos_list sf es _ hmem fs kv hocc hm hs
  | .obj gs => by
    intro fs kv h hm hs
    cases h with
    | refl => exact mask_fields_sens_val sf gs kv hm hs
    | inObj hmem hocc => exact masked_sens_pos_fields sf gs _ hmem fs kv hocc hm hs

/-- Helper: the member version of `masked_sens_pos` for element lists. -/
theorem masked_sens_pos_list (sf : List Str) :
    (es : List Json) → ∀ e, e ∈ mask_sensitive_list sf es → ∀ fs kv,
      Occurs (.obj fs) e → kv ∈ fs →
      sf.contains (lowerStr kv.1) = true → kv.2 = .str maskTok
  | [] => by intro e he; simp [mask_sensitive_list] at he
  | j :: t => by
    intro e he fs kv hocc hm hs
    simp only [mask_sensitive_list] at he
    rcases List.mem_cons.mp he with heq | ht
    · subst heq; exact masked_sens_pos sf j fs kv hocc hm hs
    · exact masked_sens_pos_list sf t e ht fs kv hocc hm hs

/-- Helper: the member version of `masked_sens_pos` for field lists. -/
theorem masked_sens_pos_fields (sf : List Str) :
    (l : List (Str × Json)) → ∀ kv', kv' ∈ mask_sensitive_fields sf l → ∀ fs kv,
      Occurs (.obj fs) kv'.2 → kv ∈ fs →
      sf.contains (lowerStr kv.1) = true → kv.2 = .str maskTok
  | [] => by intro kv' h; simp [mask_sensitive_fields] at h
  | (k, v) :: t => by
    intro kv' h fs kv hocc hm hs
    simp only [mask_sensitive_fields] at h
    rcases List.mem_cons.mp h with heq | ht
    · subst heq
      by_cases hk : sf.contains (lowerStr k) = true
      · rw [if_pos hk] at hocc
        cases hocc
      · rw [if_neg hk] at hocc
        exact masked_sens_pos sf v fs kv hocc hm hs
    · exact masked_sens_pos_fields sf t kv' ht fs kv hocc hm hs

end

/-- Claim C6 counterexample: in `obj [password ↦ "x", note ↦ "x"]` the value
`"x"` is stored under the sensitive key `password`, yet it still occurs in
the masked output (under the non-sensitive key `note`), refuting "no value
originally stored under a sensitive key appears anywhere in the output". -/
theorem mask_sensitive_cex :
    ("password".toList, Json.str "x".toList)
        ∈ [("password".toList, Json.str "x".toList), ("note".toList, Json.str "x".toList)]
      ∧ defaultSensitiveFields.contains (lowerStr "password".toList) = true
      ∧ mask_sensitive_data defaultSensitiveFields
          (.obj [("password".toList, .str "x".toList), ("note".toList, .str "x".toList)])
          = .obj [("password".toList, .str maskTok), ("note".toList, .str "x".toList)]
      ∧ Occurs (.str "x".toList)
          (mask_sensitive_data defaultSensitiveFields
            (.obj [("password".toList, .str "x".toList), ("note".toList, .str "x".toList)])) := by
  refine ⟨by simp, by decide, rfl, ?_⟩
  rw [show mask_sensitive_data defaultSensitiveFields
      (.obj [("password".toList, .str "x".toList), ("note".toList, .str "x".toList)])
      = .obj [("password".toList, .str maskTok), ("note".toList, .str "x".toList)] from rfl]
  exact @Occurs.inObj (Json.str "x".toList) ("note".toList, Json.str "x".toList)
    [("password".toList, Json.str maskTok), ("note".toList, Json.str "x".toList)]
    (by simp) (Occurs.refl _)

/-- Claim C6 as amended: masking is idempotent and total; a sensitive key's
entire value is replaced by the mask token rather than recursed into while
non-sensitive keys are recursed into; and in the masked output every object
at every nesting depth carries the mask token under each sensitive key (a
sensitive value can therefore only survive where it also occurs under a
non-sensitive key, as in the counterexample). -/
theorem mask_sensitive_amended (sf : List Str) (j : Json) :
    mask_sensitive_data sf (mask_sensitive_data sf j) = mask_sensitive_data sf j
      ∧ (∀ fs kv, Occurs (.obj fs) (mask_sensitive_data sf j) → kv ∈ fs →
          sf.contains (lowerStr kv.1) = true → kv.2 = .str maskTok)
      ∧ (∀ (k : Str) (v : Json) (t : List (Str × Json)),
          (sf.contains (lowerStr k) = true →
            mask_sensitive_fields sf ((k, v) :: t)
              = (k, .str maskTok) :: mask_sensitive_fields sf t)
          ∧ (sf.contains (lowerStr k) = false →
            mask_sensitive_fields sf ((k, v) :: t)
              = (k, mask_sensitive_data sf v) :: mask_sensitive_fields sf t)) := by
  refine ⟨mask_data_idem sf j, fun fs kv => masked_sens_pos sf j fs kv, ?_⟩
  intro k v t
  constructor
  · intro hs
    simp only [mask_sensitive_fields, if_pos hs]
  · intro hs
    simp only [mask_sensitive_fields, hs, Bool.false_eq_true, if_false]

/-- Witness for the amended C6 at a concrete nested object. -/
theorem mask_sensitive_amended_witness :
    mask_sensitive_data defaultSensitiveFields
        (mask_sensitive_data defaultSensitiveFields
          (.obj [("password".toList, .str "x".toList)]))
      = mask_sensitive_data defaultSensitiveFields
          (.obj [("password".toList, .str "x".toList)])
      ∧ (("password".toList, Json.str maskTok) : Str × Json).2 = Json.str maskTok
      ∧ mask_sensitive_fields defaultSensitiveFields
          [("password".toList, Json.str "x".toList)]
          = [("password".toList, Json.str maskTok)] := by
  refine ⟨(mask_sensitive_amended defaultSensitiveFields
      (.obj [("password".toList, .str "x".toList)])).1, ?_, ?_⟩
  · exact (mask_sensitive_amended defaultSensitiveFields
      (.obj [("password".toList, .str "x".toList)])).2.1
      [("password".toList, Json.str maskTok)]
      ("password".toList, Json.str maskTok)
      (Occurs.refl _) (by simp) (by decide)
  · exact ((mask_sensitive_amended defaultSensitiveFields
      (.obj [("password".toList, .str "x".toList)])).2.2
      "password".toList (Json.str "x".toList) []).1 (by decide)

/-- Helper: the field loop of `_mask_sensitive_data` is a `List.map`. -/
theorem mask_fields_eq_map (sf : List Str) :
    ∀ l, mask_sensitive_fields sf l
      = l.map (fun kv => (kv.1,
          if sf.contains (lowerStr kv.1) then Json.str maskTok
          else mask_sensitive_data sf kv.2)) := by
  intro l
  induction l with
  | nil => rfl
  | cons hd t ih =>
    obtain ⟨k, v⟩ := hd
    simp only [mask_sensitive_fields, List.map_cons, ih]

/-- Helper: the list branch of `_mask_sensitive_data` is a `List.map`. -/
theorem mask_list_eq_map (sf : List Str) :
    ∀ l, mask_sensitive_list sf l = l.map (mask_sensitive_data sf) := by
  intro l
  induction l with
  | nil => rfl
  | cons j t ih => simp only [mask_sensitive_list, List.map_cons, ih]

/-- Claim C10: masking preserves JSON structure exactly — non-container
values are returned unchanged; an object is masked to an object with exactly
the same keys in the same order, each sensitive key mapped to the mask token
and each non-sensitive key to the recursively masked original value; a list
is masked element-wise, preserving its length. -/
theorem mask_preserves_structure (sf : List Str) :
    mask_sensitive_data sf .null = .null
      ∧ (∀ b, mask_sensitive_data sf (.jbool b) = .jbool b)
      ∧ (∀ n, mask_sensitive_data sf (.num n) = .num n)
      ∧ (∀ s, mask_sensitive_data sf (.str s) = .str s)
      ∧ (∀ fs, mask_sensitive_data sf (.obj fs)
          = .obj (fs.map (fun kv => (kv.1,
              if sf.contains (lowerStr kv.1) then Json.str maskTok
              else mask_sensitive_data sf kv.2))))
      ∧ (∀ fs, (mask_sensitive_fields sf fs).map Prod.fst = fs.map Prod.fst)
      ∧ (∀ es, mask_sensitive_data sf (.arr es) = .arr (es.map (mask_sensitive_data sf)))
      ∧ (∀ es, (mask_sensitive_list sf es).length = es.length) := by
  refine ⟨rfl, fun _ => rfl, fun _ => rfl, fun _ => rfl, ?_, ?_, ?_, ?_⟩
  · intro fs
    simp only [mask_sensitive_data, mask_fields_eq_map]
  · intro fs
    rw [mask_fields_eq_map, List.map_map]
    rfl
  · intro es
    simp only [mask_sensitive_data, mask_list_eq_map]
  · intro es
    rw [mask_list_eq_map, List.length_map]

/-- Claim C1 counterexample: a gate with only the API-key scheme enabled and
`/health/**` excluded still rejects a request to the excluded path `/health`
with 401 when an `Authorization` header with a foreign prefix is present —
the code's final malformed-header branches test only the enabled flags, never
path exclusion, so the claimed pass-through does not happen. -/
theorem dispatch_excluded_malformed_cex :
    is_path_excluded_apikey
        (AuthMiddleware_init
          { enabled := true, prefixStr := "ApiKey ".toList,
            api_key := some "secret123".toList, exclude_patterns := ["/health/**".toList] }
          { enabled := false, exclude_patterns := [] } [])
        "/health".toList = true
      ∧ (AuthMiddleware_init
          { enabled := true, prefixStr := "ApiKey ".toList,
            api_key := some "secret123".toList, exclude_patterns := ["/health/**".toList] }
          { enabled := false, exclude_patterns := [] } []).jwt_enabled = false
      ∧ dispatch
          (AuthMiddleware_init
            { enabled := true, prefixStr := "ApiKey ".toList,
              api_key := some "secret123".toList, exclude_patterns := ["/health/**".toList] }
            { enabled := false, exclude_patterns := [] } [])
          (fun _ => .ok ()) "/health".toList (some "Basic abc".toList)
          = .reject .malformedHeaderApiKeyOnly false := by decide

/-- Claim C1 as amended: whenever at least one scheme is enabled and a
non-empty `Authorization` header starts with neither enabled scheme's
expected prefix, the gate rejects with 401 — regardless of whether the path
is excluded — with the message and `WWW-Authenticate: Bearer` header chosen
from which schemes are enabled (both → generic with bearer header, API key
only → key message without it, token only → bearer message with it);
pass-through on a fully excluded path happens only for an absent or empty
header. -/
theorem dispatch_wrong_scheme_always_rejects (m : AuthMiddlewareM)
    (f : Str → Except Str Unit) (path s : Str)
    (hne : s.isEmpty = false)
    (hen : m.api_key_enabled = true ∨ m.jwt_enabled = true)
    (hA : m.api_key_enabled = true → m.api_key_settings.prefixStr.isPrefixOf s = false)
    (hJ : m.jwt_enabled = true → bearerPrefixStr.isPrefixOf s = false) :
    dispatch m f path (some s)
      = if m.api_key_enabled && m.jwt_enabled then .reject .malformedHeaderBoth true
        else if m.api_key_enabled then .reject .malformedHeaderApiKeyOnly false
        else .reject .malformedHeaderBearerOnly true := by
  cases ha : m.api_key_enabled with
  | false =>
    cases hj : m.jwt_enabled with
    | false => rcases hen with h | h
               · rw [ha] at h; exact absurd h (by simp)
               · rw [hj] at h; exact absurd h (by simp)
    | true => simp [dispatch, pyTruthyOptStr, hne, ha, hj, hJ hj]
  | true =>
    cases hj : m.jwt_enabled with
    | false => simp [dispatch, pyTruthyOptStr, hne, ha, hj, hA ha]
    | true => simp [dispatch, pyTruthyOptStr, hne, ha, hj, hA ha, hJ hj]

/-- Witness for the amended C1: both schemes enabled, path excluded from
both, foreign `Basic` header — still a 401 with the generic message. -/
theorem dispatch_wrong_scheme_always_rejects_witness :
    dispatch
        (AuthMiddleware_init
          { enabled := true, prefixStr := "ApiKey ".toList,
            api_key := some "k".toList, exclude_patterns := ["/health/**".toList] }
          { enabled := true, exclude_patterns := ["/health/**".toList] } [])
        (fun _ => .ok ()) "/health".toList (some "Basic x".toList)
      = .reject .malformedHeaderBoth true := by
  have h := dispatch_wrong_scheme_always_rejects
    (AuthMiddleware_init
      { enabled := true, prefixStr := "ApiKey ".toList,
        api_key := some "k".toList, exclude_patterns := ["/health/**".toList] }
      { enabled := true, exclude_patterns := ["/health/**".toList] } [])
    (fun _ => .ok ()) "/health".toList "Basic x".toList
    (by decide) (Or.inl (by decide)) (fun _ => by decide) (fun _ => by decide)
  rw [h]
  decide

/-- Claim C4: with the API-key scheme enabled, the path not excluded for it,
and a header carrying the configured prefix, the gate's decision is made by
exact string equality of the remainder with the configured key — allow on
equality, 401 invalid-key otherwise — for EVERY token verifier `f` and
independently of the token scheme, which is never consulted. -/
theorem dispatch_apikey_first (m : AuthMiddlewareM) (f : Str → Except Str Unit)
    (path s : Str)
    (hne : s.isEmpty = false)
    (hen : m.api_key_enabled = true)
    (hex : is_path_excluded_apikey m path = false)
    (hpre : m.api_key_settings.prefixStr.isPrefixOf s = true) :
    (optStrEq (s.drop m.api_key_settings.prefixStr.length) m.api_key_settings.api_key = true →
        dispatch m f path (some s) = .passThrough)
      ∧ (optStrEq (s.drop m.api_key_settings.prefixStr.length) m.api_key_settings.api_key = false →
        dispatch m f path (some s) = .reject .invalidApiKey false) := by
  constructor
  · intro hkey
    simp [dispatch, pyTruthyOptStr, hne, hen, hex, hpre, hkey]
  · intro hkey
    simp [dispatch, pyTruthyOptStr, hne, hen, hex, hpre, hkey]

/-- Witness for C4: gate with both schemes enabled; the right key passes, a
wrong key is rejected with the invalid-key 401 (no bearer header). -/
theorem dispatch_apikey_first_witness :
    dispatch
        (AuthMiddleware_init
          { enabled := true, prefixStr := "ApiKey ".toList,
            api_key := some "secret123".toList, exclude_patterns := [] }
          { enabled := true, exclude_patterns := [] } [])
        (fun _ => .error "bad".toList) "/api/x".toList (some "ApiKey secret123".toList)
      = .passThrough
      ∧ dispatch
          (AuthMiddleware_init
            { enabled := true, prefixStr := "ApiKey ".toList,
              api_key := some "secret123".toList, exclude_patterns := [] }
            { enabled := true, exclude_patterns := [] } [])
          (fun _ => .error "bad".toList) "/api/x".toList (some "ApiKey wrong".toList)
        = .reject .invalidApiKey false := by
  constructor
  · exact (dispatch_apikey_first
      (AuthMiddleware_init
        { enabled := true, prefixStr := "ApiKey ".toList,
          api_key := some "secret123".toList, exclude_patterns := [] }
        { enabled := true, exclude_patterns := [] } [])
      (fun _ => .error "bad".toList) "/api/x".toList "ApiKey secret123".toList
      (by decide) (by decide) (by decide) (by decide)).1 (by decide)
  · exact (dispatch_apikey_first
      (AuthMiddleware_init
        { enabled := true, prefixStr := "ApiKey ".toList,
          api_key := some "secret123".toList, exclude_patterns := [] }
        { enabled := true, exclude_patterns := [] } [])
      (fun _ => .error "bad".toList) "/api/x".toList "ApiKey wrong".toList
      (by decide) (by decide) (by decide) (by decide)).2 (by decide)

/-- Claim C5: a gate constructed with the API-key scheme's enabled flag set
but no key value configured behaves exactly like one constructed with the
scheme disabled — the effective flag is false and every request gets the
same outcome, so none is rejected for lacking an API key. -/
theorem init_without_key_disables_apikey (ap : ApiKeySettingsM) (jw : JwtSettingsM)
    (ex : List Str)
    (hen : ap.enabled = true) (hkey : pyTruthyOptStr ap.api_key = false) :
    (AuthMiddleware_init ap jw ex).api_key_enabled = false
      ∧ ∀ (f : Str → Except Str Unit) (path : Str) (auth : Option Str),
          dispatch (AuthMiddleware_init ap jw ex) f path auth
            = dispatch (AuthMiddleware_init { ap with enabled := false } jw ex) f path auth := by
  have e1 : (AuthMiddleware_init ap jw ex).api_key_enabled = false := by
    simp [AuthMiddleware_init, hkey]
  have e2 : (AuthMiddleware_init { ap with enabled := false } jw ex).api_key_enabled = false := by
    simp [AuthMiddleware_init]
  refine ⟨e1, fun f path auth => ?_⟩
  simp only [dispatch, e1, e2]
  rfl

/-- Witness for C5: enabled flag set, key `None` — the effective flag is
false and a keyless request on a concrete path is treated identically to the
disabled-scheme gate. -/
theorem init_without_key_disables_apikey_witness :
    (AuthMiddleware_init
        { enabled := true, prefixStr := "ApiKey ".toList,
          api_key := none, exclude_patterns := [] }
        { enabled := false, exclude_patterns := [] } []).api_key_enabled = false
      ∧ dispatch
          (AuthMiddleware_init
            { enabled := true, prefixStr := "ApiKey ".toList,
              api_key := none, exclude_patterns := [] }
            { enabled := false, exclude_patterns := [] } [])
          (fun _ => .ok ()) "/api/x".toList none
        = dispatch
            (AuthMiddleware_init
              { enabled := false, prefixStr := "ApiKey ".toList,
                api_key := none, exclude_patterns := [] }
              { enabled := false, exclude_patterns := [] } [])
            (fun _ => .ok ()) "/api/x".toList none := by
  constructor
  · exact (init_without_key_disables_apikey
      { enabled := true, prefixStr := "ApiKey ".toList,
        api_key := none, exclude_patterns := [] }
      { enabled := false, exclude_patterns := [] } [] (by decide) (by decide)).1
  · exact (init_without_key_disables_apikey
      { enabled := true, prefixStr := "ApiKey ".toList,
        api_key := none, exclude_patterns := [] }
      { enabled := false, exclude_patterns := [] } [] (by decide) (by decide)).2
      (fun _ => .ok ()) "/api/x".toList none

/-- Claim C9 counterexample: a plain text response (not a `JSONResponse`)
with content type `text/plain`, no `Content-Disposition` and body `hello` is
NOT classified as a file, yet `_capture_response_body` returns no body at
all instead of the claimed raw truncated text, because capture is keyed off
the concrete response class; conversely a `FileResponse` instance with no
file metadata whatsoever is still classified as a file, because
classification starts with an `isinstance` check. -/
theorem capture_response_cex :
    is_file_response
        { cls := .plain "hello".toList,
          headers := { contentType := "text/plain".toList, contentDisposition := [] } } = false
      ∧ capture_response_body true defaultSensitiveFields 10000 (fun _ => none) (fun _ => [])
          { cls := .plain "hello".toList,
            headers := { contentType := "text/plain".toList, contentDisposition := [] } }
          = .noBody
      ∧ CaptureResult.noBody ≠ .bodyText (truncate_body 10000 "hello".toList)
      ∧ is_file_response
          { cls := .fileResponse, headers := { contentType := [], contentDisposition := [] } }
          = true := by decide

/-- Claim C9 as amended: for responses not classified as files, capture
parses-masks-truncates or raw-truncates only bodies of `JSONResponse`-typed
responses; any other concrete response class yields no captured body at all;
and classification itself treats every `FileResponse` instance as a file
regardless of its declared metadata. -/
theorem capture_response_amended (sf : List Str) (maxBodySize : Nat)
    (parseJson : Str → Option Json) (dumpsJson : Json → Str) (headers : RespHeaders) :
    (∀ body, is_file_response { cls := .plain body, headers := headers } = false →
        capture_response_body true sf maxBodySize parseJson dumpsJson
          { cls := .plain body, headers := headers } = .noBody)
      ∧ (∀ body j, is_file_response { cls := .jsonResponse body, headers := headers } = false →
          body.isEmpty = false → parseJson body = some j →
          capture_response_body true sf maxBodySize parseJson dumpsJson
            { cls := .jsonResponse body, headers := headers }
            = .bodyText (truncate_body maxBodySize (dumpsJson (mask_sensitive_data sf j))))
      ∧ (∀ body, is_file_response { cls := .jsonResponse body, headers := headers } = false →
          body.isEmpty = false → parseJson body = none →
          capture_response_body true sf maxBodySize parseJson dumpsJson
            { cls := .jsonResponse body, headers := headers }
            = .bodyText (truncate_body maxBodySize body))
      ∧ is_file_response { cls := .fileResponse, headers := headers } = true := by
  refine ⟨?_, ?_, ?_, ?_⟩
  · intro body hfile
    simp [capture_response_body, hfile]
  · intro body j hfile hne hparse
    simp [capture_response_body, hfile, hne, hparse]
  · intro body hfile hne hparse
    simp [capture_response_body, hfile, hne, hparse]
  · simp [is_file_response]

/-- Witness for the amended C9 at concrete responses with a concrete parser
and serializer. -/
theorem capture_response_amended_witness :
    capture_response_body true defaultSensitiveFields 10000 (fun _ => none) (fun _ => [])
        { cls := .plain "hello".toList,
          headers := { contentType := "text/plain".toList, contentDisposition := [] } }
        = .noBody
      ∧ capture_response_body true defaultSensitiveFields 10000 (fun _ => none) (fun _ => [])
          { cls := .jsonResponse "oops".toList,
            headers := { contentType := "application/json".toList, contentDisposition := [] } }
          = .bodyText (truncate_body 10000 "oops".toList)
      ∧ is_file_response
          { cls := .fileResponse,
            headers := { contentType := "text/plain".toList, contentDisposition := [] } }
          = true := by
  refine ⟨?_, ?_, ?_⟩
  · exact (capture_response_amended defaultSensitiveFields 10000 (fun _ => none) (fun _ => [])
      { contentType := "text/plain".toList, contentDisposition := [] }).1
      "hello".toList (by decide)
  · exact (capture_response_amended defaultSensitiveFields 10000 (fun _ => none) (fun _ => [])
      { contentType := "application/json".toList, contentDisposition := [] }).2.2.1
      "oops".toList (by decide) (by decide) rfl
  · exact (capture_response_amended defaultSensitiveFields 10000 (fun _ => none) (fun _ => [])
      { contentType := "text/plain".toList, contentDisposition := [] }).2.2.2
